/-
  Verification of the attention / decoder components of
  sooftware/End-to-End-Korean-Speech-Recognition.

  Shallow embedding conventions:
  * Tensors are modelled as a shape (explicit ℕ fields) together with a total
    data function over ℕ indices; entries outside the shape are irrelevant and
    every theorem quantifies only over in-range indices.
  * `view` / reshape operations are modelled exactly as PyTorch performs them on
    contiguous tensors: row-major flattening followed by row-major unflattening.
    (`permute` produces a logical tensor; the subsequent `.contiguous()` call in
    the source makes the following `view` act on the row-major order of the
    logical tensor, which is what `T2.flat`/`T3.flat`/`T4.flat` compute.)
  * Real scalars are modelled as ℚ.  The transcendental functions used by the
    source (`exp` inside `softmax`, `tanh`, `log` inside `log_softmax`) are
    parameters of the embedding; theorems assume of them only the properties the
    claims depend on (strict positivity of `exp`).
  * Fallible tensor operations (PyTorch runtime shape checks) return `Except`.
-/
import Mathlib

/-- A rank-1 integer tensor (e.g. a tensor of sequence lengths). -/
structure T1I where
  n0 : ℕ
  d : ℕ → ℕ

/-- A rank-2 integer tensor (e.g. a tensor of token ids). -/
structure T2I where
  n0 : ℕ
  n1 : ℕ
  d : ℕ → ℕ → ℕ

/-- A rank-2 floating tensor, modelled over ℚ. -/
structure T2 where
  n0 : ℕ
  n1 : ℕ
  d : ℕ → ℕ → ℚ

/-- A rank-3 floating tensor, modelled over ℚ. -/
structure T3 where
  n0 : ℕ
  n1 : ℕ
  n2 : ℕ
  d : ℕ → ℕ → ℕ → ℚ

/-- A rank-4 floating tensor, modelled over ℚ. -/
structure T4 where
  n0 : ℕ
  n1 : ℕ
  n2 : ℕ
  n3 : ℕ
  d : ℕ → ℕ → ℕ → ℕ → ℚ

def T2.numel (t : T2) : ℕ := t.n0 * t.n1

def T3.numel (t : T3) : ℕ := t.n0 * t.n1 * t.n2

def T4.numel (t : T4) : ℕ := t.n0 * t.n1 * t.n2 * t.n3

/-- Row-major flattening of a rank-2 tensor. -/
def T2.flat (t : T2) : ℕ → ℚ := fun i => t.d (i / t.n1) (i % t.n1)

/-- Row-major flattening of a rank-3 tensor. -/
def T3.flat (t : T3) : ℕ → ℚ :=
  fun i => t.d (i / (t.n1 * t.n2)) (i / t.n2 % t.n1) (i % t.n2)

/-- Row-major flattening of a rank-4 tensor. -/
def T4.flat (t : T4) : ℕ → ℚ :=
  fun i => t.d (i / (t.n1 * t.n2 * t.n3)) (i / (t.n2 * t.n3) % t.n1) (i / t.n3 % t.n2) (i % t.n3)

/-- Row-major unflattening into a rank-2 tensor of the given shape. -/
def mkT2 (a b : ℕ) (f : ℕ → ℚ) : T2 := ⟨a, b, fun i j => f (i * b + j)⟩

/-- Row-major unflattening into a rank-3 tensor of the given shape. -/
def mkT3 (a b c : ℕ) (f : ℕ → ℚ) : T3 := ⟨a, b, c, fun i j k => f ((i * b + j) * c + k)⟩

/-- Row-major unflattening into a rank-4 tensor of the given shape. -/
def mkT4 (a b c e : ℕ) (f : ℕ → ℚ) : T4 :=
  ⟨a, b, c, e, fun i j k l => f (((i * b + j) * c + k) * e + l)⟩

/-- `Tensor.transpose(1, 2)` on a rank-3 tensor. -/
def T3.transpose12 (t : T3) : T3 := ⟨t.n0, t.n2, t.n1, fun b i j => t.d b j i⟩

/-- `Tensor.permute(0, 2, 1, 3)` on a rank-4 tensor. -/
def T4.permute0213 (t : T4) : T4 :=
  ⟨t.n0, t.n2, t.n1, t.n3, fun a b c e => t.d a c b e⟩

/-- `Tensor.unsqueeze(1)` on a rank-3 tensor. -/
def T3.unsqueeze1 (t : T3) : T4 := ⟨t.n0, 1, t.n1, t.n2, fun a _ b c => t.d a b c⟩

/-- `Tensor.unsqueeze(1)` on a rank-2 tensor. -/
def T2.unsqueeze1 (t : T2) : T3 := ⟨t.n0, 1, t.n1, fun a _ b => t.d a b⟩

/-- `Tensor.squeeze(2)` on a rank-3 tensor whose dimension 2 has size 1. -/
def T3.squeeze2 (t : T3) : T2 := ⟨t.n0, t.n1, fun a b => t.d a b 0⟩

/-- `Tensor.repeat(r0, r1, r2, r3)` on a rank-4 tensor (tiling). -/
def T4.repeat4 (t : T4) (r0 r1 r2 r3 : ℕ) : T4 :=
  ⟨t.n0 * r0, t.n1 * r1, t.n2 * r2, t.n3 * r3,
    fun a b c e => t.d (a % t.n0) (b % t.n1) (c % t.n2) (e % t.n3)⟩

/-- Broadcast size of one dimension: a size-1 dimension stretches to the other. -/
def bsize (a b : ℕ) : ℕ := if a = 1 then b else a

/-- Broadcast index read: a size-1 dimension is always read at index 0. -/
def bidx (n i : ℕ) : ℕ := if n = 1 then 0 else i

/-- Broadcasting elementwise addition of rank-3 tensors (PyTorch semantics for
    compatible shapes, where size-1 dimensions broadcast). -/
def T3.bAdd (x y : T3) : T3 :=
  ⟨bsize x.n0 y.n0, bsize x.n1 y.n1, bsize x.n2 y.n2,
    fun i j k =>
      x.d (bidx x.n0 i) (bidx x.n1 j) (bidx x.n2 k) +
      y.d (bidx y.n0 i) (bidx y.n1 j) (bidx y.n2 k)⟩

/-- Same-shape elementwise addition of rank-3 tensors. -/
def T3.add3 (x y : T3) : T3 :=
  ⟨x.n0, x.n1, x.n2, fun i j k => x.d i j k + y.d i j k⟩

/-- Elementwise map over a rank-3 tensor (used for `torch.tanh`). -/
def T3.map3 (f : ℚ → ℚ) (t : T3) : T3 := ⟨t.n0, t.n1, t.n2, fun i j k => f (t.d i j k)⟩

/-- `torch.bmm`: batched matrix multiplication of (b, n, m) with (b, m, p). -/
def T3.bmm (x y : T3) : T3 :=
  ⟨x.n0, x.n1, y.n2,
    fun b i j => ∑ k in Finset.range x.n2, x.d b i k * y.d b k j⟩

/-- `torch.cat([x, y], dim=2)` on rank-3 tensors. -/
def T3.cat2 (x y : T3) : T3 :=
  ⟨x.n0, x.n1, x.n2 + y.n2,
    fun b i k => if k < x.n2 then x.d b i k else y.d b i (k - x.n2)⟩

/-- `F.softmax(t, dim=1)` on a rank-2 tensor, with `ex` standing for the real
    exponential. -/
def softmax2 (ex : ℚ → ℚ) (t : T2) : T2 :=
  ⟨t.n0, t.n1, fun i j => ex (t.d i j) / ∑ k in Finset.range t.n1, ex (t.d i k)⟩

/-- `F.log_softmax(t, dim=-1)` on a rank-3 tensor, with `ex` standing for the
    real exponential and `lg` for the real logarithm. -/
def logSoftmaxLast (ex lg : ℚ → ℚ) (t : T3) : T3 :=
  ⟨t.n0, t.n1, t.n2,
    fun b s j => lg (ex (t.d b s j) / ∑ k in Finset.range t.n2, ex (t.d b s k))⟩

/-- An `nn.Linear` layer: weight is (out_features, in_features); a bias-free
    layer is modelled with the constant-zero bias function. -/
structure Linear where
  inF : ℕ
  outF : ℕ
  w : ℕ → ℕ → ℚ
  b : ℕ → ℚ

/-- Apply a linear layer along the last axis of a rank-3 tensor
    (`y = x Wᵀ + b`). -/
def Linear.ap3 (l : Linear) (t : T3) : T3 :=
  ⟨t.n0, t.n1, l.outF,
    fun i j o => (∑ k in Finset.range l.inF, l.w o k * t.d i j k) + l.b o⟩

/-- Apply a linear layer along the last axis of a rank-2 tensor. -/
def Linear.ap2 (l : Linear) (t : T2) : T2 :=
  ⟨t.n0, l.outF,
    fun i o => (∑ k in Finset.range l.inF, l.w o k * t.d i k) + l.b o⟩

/-- An `nn.Conv1d` layer (weight indexed by out-channel, in-channel, tap). -/
structure Conv1d where
  inC : ℕ
  outC : ℕ
  kernel : ℕ
  pad : ℕ
  w : ℕ → ℕ → ℕ → ℚ
  b : ℕ → ℚ

/-- Zero-padded read of input position `i` (measured in the padded coordinate
    system) of channel `ch` of batch element `bt`. -/
def padRead (t : T3) (bt ch i p : ℕ) : ℚ :=
  if i < p then 0 else if i - p < t.n2 then t.d bt ch (i - p) else 0

/-- Output length of a 1-D convolution (stride 1). -/
def convOutLen (l kernel pad : ℕ) : ℕ := l + 2 * pad + 1 - kernel

/-- Apply a 1-D convolution to a (batch, channels, length) tensor. -/
def Conv1d.ap (c : Conv1d) (t : T3) : T3 :=
  ⟨t.n0, c.outC, convOutLen t.n2 c.kernel c.pad,
    fun bt oc s =>
      c.b oc +
        ∑ ch in Finset.range c.inC, ∑ j in Finset.range c.kernel,
          c.w oc ch j * padRead t bt ch (s + j) c.pad⟩

/-- A dynamically-ranked tensor argument, as a Python call site may pass either
    a rank-2 or a rank-3 tensor. -/
inductive PyTensor
  | t2 (t : T2)
  | t3 (t : T3)

/-- Runtime errors raised during `LocationAwareAttention.forward`. -/
inductive PyError
  /-- `nn.Conv1d` rejects a rank-2 input (expects (batch, channels, length)). -/
  | convInputRank
  /-- `nn.Conv1d` rejects mismatched channel count or an input shorter than the
      kernel minus the padding. -/
  | convShape
  /-- Python `AttributeError`: reading `self.hidden_dim`, which `__init__`
      never assigns. -/
  | missingHiddenDim
  deriving DecidableEq

/-- The `LocationAwareAttention` module (src/e2e/model/attention.py).  The
    fields are exactly the attributes `__init__` assigns; `hidden_dim?` models
    the Python attribute table entry for the name `hidden_dim`, which
    `__init__` never creates (hence `none` after construction) although
    `forward` reads it. -/
structure LocationAwareAttention where
  num_heads : ℕ
  dim : ℕ
  q_proj : Linear
  v_proj : Linear
  loc_proj : Linear
  conv1d : Conv1d
  bias : ℕ → ℚ
  score_proj : Linear
  output_proj : Linear
  hidden_dim? : Option ℕ

/-- `LocationAwareAttention.__init__(hidden_dim, num_heads, conv_out_channel)`
    (lines 33-43).  The weight and bias data of the layers are parameters
    (their initialisation draws random values).  Bias-free layers
    (`q_proj`, `v_proj`, `loc_proj`, created with `bias=False`) get the
    constant-zero bias function. -/
def LocationAwareAttention.init (hidden_dim num_heads conv_out_channel : ℕ)
    (qw vw : ℕ → ℕ → ℚ) (lw : ℕ → ℕ → ℚ) (cw : ℕ → ℕ → ℕ → ℚ) (cb : ℕ → ℚ)
    (bv : ℕ → ℚ) (sw : ℕ → ℕ → ℚ) (sb : ℕ → ℚ) (ow : ℕ → ℕ → ℚ) (ob : ℕ → ℚ) :
    LocationAwareAttention :=
  { num_heads := num_heads
    dim := hidden_dim / num_heads
    q_proj := ⟨hidden_dim, hidden_dim / num_heads * num_heads, qw, fun _ => 0⟩
    v_proj := ⟨hidden_dim, hidden_dim / num_heads * num_heads, vw, fun _ => 0⟩
    loc_proj := ⟨conv_out_channel, hidden_dim / num_heads, lw, fun _ => 0⟩
    conv1d := ⟨num_heads, conv_out_channel, 3, 1, cw, cb⟩
    bias := bv
    score_proj := ⟨hidden_dim / num_heads, 1, sw, sb⟩
    output_proj := ⟨hidden_dim <<< 1, hidden_dim, ow, ob⟩
    hidden_dim? := none }

/-- Lines 53-55 of `forward`: the location energy
    `tanh(loc_proj(conv1d(prev_align).transpose(1, 2)))`, then
    `.unsqueeze(1).repeat(1, num_heads, 1, 1).view(-1, seq_len, dim)`.
    `th` stands for the real `tanh`; `paT` is the (batch, num_heads, v_len)
    previous-alignment tensor and `seq_len` is `value.size(1)`. -/
def LocationAwareAttention.locEnergy (m : LocationAwareAttention) (th : ℚ → ℚ)
    (seq_len : ℕ) (paT : T3) : T3 :=
  let l1 := T3.map3 th (m.loc_proj.ap3 (m.conv1d.ap paT).transpose12)
  let r := (l1.unsqueeze1.repeat4 1 m.num_heads 1 1)
  mkT3 (r.numel / (seq_len * m.dim)) seq_len m.dim r.flat

/-- Lines 57 and 59 of `forward`:
    `q_proj(query).view(batch_size, -1, num_heads, dim).permute(0, 2, 1, 3)`
    then `.contiguous().view(-1, 1, dim)`. -/
def LocationAwareAttention.queryHeads (m : LocationAwareAttention)
    (batch_size : ℕ) (query : T3) : T3 :=
  let q := m.q_proj.ap3 query
  let q4 := (mkT4 batch_size (q.numel / (batch_size * (m.num_heads * m.dim)))
    m.num_heads m.dim q.flat).permute0213
  mkT3 (q4.numel / (1 * m.dim)) 1 m.dim q4.flat

/-- Lines 58 and 60 of `forward`:
    `v_proj(value).view(batch_size, -1, num_heads, dim).permute(0, 2, 1, 3)`
    then `.contiguous().view(-1, seq_len, dim)`. -/
def LocationAwareAttention.valueHeads (m : LocationAwareAttention)
    (batch_size seq_len : ℕ) (value : T3) : T3 :=
  let v := m.v_proj.ap3 value
  let v4 := (mkT4 batch_size (v.numel / (batch_size * (m.num_heads * m.dim)))
    m.num_heads m.dim v.flat).permute0213
  mkT3 (v4.numel / (seq_len * m.dim)) seq_len m.dim v4.flat

/-- Line 64 of `forward`:
    `score_proj(tanh(value + query + loc_energy + bias)).squeeze(2)`
    (the learned 1-D `bias` of size `dim` broadcasts as a (1, 1, dim) tensor). -/
def LocationAwareAttention.score (m : LocationAwareAttention) (th : ℚ → ℚ)
    (q1 v1 locE : T3) : T2 :=
  (m.score_proj.ap3 (T3.map3 th
    (((v1.bAdd q1).bAdd locE).bAdd ⟨1, 1, m.dim, fun _ _ k => m.bias k⟩))).squeeze2

/-- Lines 53-65 of `forward`: the (batch·num_heads, v_len) alignment
    `F.softmax(score, dim=1)`, with `ex` standing for the real exponential. -/
def LocationAwareAttention.alignResult (m : LocationAwareAttention)
    (ex th : ℚ → ℚ) (query value : T3) (paT : T3) : T2 :=
  let batch_size := value.n0
  let seq_len := value.n1
  let loc_energy := m.locEnergy th seq_len paT
  let q1 := m.queryHeads batch_size query
  let v1 := m.valueHeads batch_size seq_len value
  softmax2 ex (m.score th q1 v1 loc_energy)

/-- Lines 67-68 of `forward`:
    `value.view(batch_size, seq_len, num_heads, dim).permute(0, 2, 1, 3)` then
    `.contiguous().view(-1, seq_len, dim)`, applied to the (batch·num_heads,
    v_len, dim) tensor produced on line 60. -/
def LocationAwareAttention.valueRe (m : LocationAwareAttention)
    (batch_size seq_len : ℕ) (v1 : T3) : T3 :=
  let v4 := (mkT4 batch_size seq_len m.num_heads m.dim v1.flat).permute0213
  mkT3 (v4.numel / (seq_len * m.dim)) seq_len m.dim v4.flat

/-- Line 71 of `forward`:
    `torch.bmm(align.unsqueeze(1), value).view(batch_size, -1, num_heads * dim)`
    where `value` is the tensor re-viewed on lines 67-68. -/
def LocationAwareAttention.contextResult (m : LocationAwareAttention)
    (ex th : ℚ → ℚ) (query value : T3) (paT : T3) : T3 :=
  let batch_size := value.n0
  let seq_len := value.n1
  let align2 := m.alignResult ex th query value paT
  let v2 := m.valueRe batch_size seq_len (m.valueHeads batch_size seq_len value)
  let c := (align2.unsqueeze1).bmm v2
  mkT3 batch_size (c.numel / (batch_size * (m.num_heads * m.dim)))
    (m.num_heads * m.dim) c.flat

/-- Line 72 of `forward`: `align.view(batch_size, num_heads, -1)`. -/
def LocationAwareAttention.align3Result (m : LocationAwareAttention)
    (ex th : ℚ → ℚ) (query value : T3) (paT : T3) : T3 :=
  let align2 := m.alignResult ex th query value paT
  mkT3 value.n0 m.num_heads (align2.numel / (value.n0 * m.num_heads)) align2.flat

/-- Lines 75-76 of `forward` as intended for an assigned `hidden_dim` value
    `hd`: `combined = torch.cat([context, residual], dim=2)` and
    `output = output_proj(combined.view(-1, hd << 1)).view(batch_size, -1, hd)`. -/
def LocationAwareAttention.outputOf (m : LocationAwareAttention)
    (hd batch_size : ℕ) (context residual : T3) : T3 :=
  let combined := context.cat2 residual
  let o := m.output_proj.ap2 (mkT2 (combined.numel / (hd <<< 1)) (hd <<< 1)
    combined.flat)
  mkT3 batch_size (o.numel / (batch_size * hd)) hd o.flat

/-- `LocationAwareAttention.forward(query, value, prev_align)` (lines 45-78).
    A `none` previous alignment is replaced by a zero tensor of shape
    (batch_size, num_heads, seq_len) (lines 50-51).  The guard in the middle
    models the input validation `nn.Conv1d` performs at line 53: the input must
    be rank 3, its channel count must equal `num_heads`, and its padded length
    must reach the kernel size.  The final step (line 76) reads
    `self.hidden_dim`; since `__init__` never assigns that attribute, the read
    raises `AttributeError` whenever `hidden_dim?` is `none`. -/
def LocationAwareAttention.forward (m : LocationAwareAttention)
    (ex th : ℚ → ℚ) (query value : T3) (prev_align : Option PyTensor) :
    Except PyError (T3 × T3) :=
  let batch_size := value.n0
  let seq_len := value.n1
  let residual := query
  let pa : PyTensor := match prev_align with
    | none => .t3 ⟨batch_size, m.num_heads, seq_len, fun _ _ _ => 0⟩
    | some t => t
  match pa with
  | .t2 _ => .error .convInputRank
  | .t3 paT =>
    if paT.n1 = m.conv1d.inC ∧ m.conv1d.kernel ≤ paT.n2 + 2 * m.conv1d.pad then
      let context := m.contextResult ex th query value paT
      let align := m.align3Result ex th query value paT
      match m.hidden_dim? with
      | none => .error .missingHiddenDim
      | some hd => .ok (m.outputOf hd batch_size context residual, align)
    else .error .convShape

/-- State-threaded form of `LocationAwareAttention.forward`: the body of
    `forward` contains no assignment to `self`, so the post-state of the module
    object equals its pre-state. -/
def LocationAwareAttention.forwardS (m : LocationAwareAttention)
    (ex th : ℚ → ℚ) (query value : T3) (prev_align : Option PyTensor) :
    LocationAwareAttention × Except PyError (T3 × T3) :=
  (m, m.forward ex th query value prev_align)

/-- Modelled from the spec: the generic `MultiHeadAttention` primitive
    (kospeech/models/attention.py, not under src/) is an out-of-scope
    collaborator; the spec only requires that it consumes (query, key, value,
    mask) and produces an attention output with the query's
    [batch, seq_len, d_model] shape together with attention weights.  The
    numeric content is an abstract function of the inputs. -/
structure MultiHeadAttention where
  outData : T3 → T3 → T3 → Option T3 → (ℕ → ℕ → ℕ → ℚ)
  attnW : T3 → T3 → T3 → Option T3 → T3

def MultiHeadAttention.ap (a : MultiHeadAttention) (q k v : T3)
    (mask : Option T3) : T3 × T3 :=
  (⟨q.n0, q.n1, q.n2, a.outData q k v mask⟩, a.attnW q k v mask)

/-- Modelled from the spec: layer normalisation
    (kospeech/models/transformer/sublayers.py, not under src/) is
    shape-preserving; its numeric content is an abstract function of its
    input. -/
structure LayerNorm where
  normData : T3 → (ℕ → ℕ → ℕ → ℚ)

def LayerNorm.ap (l : LayerNorm) (t : T3) : T3 := ⟨t.n0, t.n1, t.n2, l.normData t⟩

/-- Modelled from the spec: `AddNorm` wrapping an attention sublayer
    (kospeech/models/transformer/sublayers.py, not under src/): apply the
    sublayer, add the residual (the first argument), normalise; the attention
    weights are passed through. -/
structure AddNormAttn where
  sublayer : MultiHeadAttention
  layer_norm : LayerNorm

def AddNormAttn.ap (an : AddNormAttn) (q k v : T3) (mask : Option T3) :
    T3 × T3 :=
  let r := an.sublayer.ap q k v mask
  (an.layer_norm.ap (r.1.add3 q), r.2)

/-- Modelled from the spec: `PositionwiseFeedForwardNet`
    (kospeech/models/transformer/sublayers.py, not under src/) is a
    shape-preserving position-wise network; its numeric content is an abstract
    function of its input. -/
structure PositionwiseFeedForwardNet where
  ffData : T3 → (ℕ → ℕ → ℕ → ℚ)

def PositionwiseFeedForwardNet.ap (f : PositionwiseFeedForwardNet) (t : T3) :
    T3 := ⟨t.n0, t.n1, t.n2, f.ffData t⟩

/-- Modelled from the spec: `AddNorm` wrapping the feed-forward sublayer:
    apply the sublayer, add the residual, normalise. -/
structure AddNormFF where
  sublayer : PositionwiseFeedForwardNet
  layer_norm : LayerNorm

def AddNormFF.ap (an : AddNormFF) (t : T3) : T3 :=
  an.layer_norm.ap ((an.sublayer.ap t).add3 t)

/-- `SpeechTransformerDecoderLayer`
    (src/kospeech/models/transformer/decoder.py, lines 28-64). -/
structure SpeechTransformerDecoderLayer where
  self_attention : AddNormAttn
  memory_attention : AddNormAttn
  feed_forward : AddNormFF

/-- `SpeechTransformerDecoderLayer.forward(inputs, memory, self_attn_mask,
    memory_mask)` (lines 54-64): self-attention over `inputs`, then
    cross-attention whose queries are the self-attention output and whose keys
    and values are `memory`, then the feed-forward sublayer. -/
def SpeechTransformerDecoderLayer.forward (l : SpeechTransformerDecoderLayer)
    (inputs memory : T3) (self_attn_mask memory_mask : Option T3) :
    T3 × T3 × T3 :=
  let r1 := l.self_attention.ap inputs inputs inputs self_attn_mask
  let r2 := l.memory_attention.ap r1.1 memory memory memory_mask
  let outputs := l.feed_forward.ap r2.1
  (outputs, r1.2, r2.2)

/-- Modelled from the spec: the `Embedding` collaborator
    (kospeech/models/transformer/embeddings.py, not under src/) supplies a
    [batch, seq_len, d_model] tensor given token ids. -/
structure Embedding where
  d_model : ℕ
  embData : T2I → (ℕ → ℕ → ℕ → ℚ)

def Embedding.ap (e : Embedding) (t : T2I) : T3 := ⟨t.n0, t.n1, e.d_model, e.embData t⟩

/-- Modelled from the spec: the `PositionalEncoding` collaborator
    (kospeech/models/transformer/embeddings.py, not under src/) supplies a
    (1, length, d_model) tensor given a target length; it broadcasts over the
    batch when added. -/
structure PositionalEncoding where
  d_model : ℕ
  peData : ℕ → (ℕ → ℕ → ℕ → ℚ)

def PositionalEncoding.ap (p : PositionalEncoding) (length : ℕ) : T3 :=
  ⟨1, length, p.d_model, p.peData length⟩

/-- Modelled from the spec: `nn.Dropout` is shape-preserving; its numeric
    content is an abstract function of its input (deterministic abstraction of
    the stochastic layer). -/
structure Dropout where
  dropData : T3 → (ℕ → ℕ → ℕ → ℚ)

def Dropout.ap (dp : Dropout) (t : T3) : T3 := ⟨t.n0, t.n1, t.n2, dp.dropData t⟩

/-- Index of the first maximum of `f` over `0, ..., n-1` — the index tensor
    returned by `Tensor.max(dim=-1)`. -/
def argmaxIdx : ℕ → (ℕ → ℚ) → ℕ
  | 0, _ => 0
  | n + 1, f => let b := argmaxIdx n f; if f b < f n then n else b

/-- `SpeechTransformerDecoder`
    (src/kospeech/models/transformer/decoder.py, lines 67-147).  The fields
    `decData` and `fcData` are Modelled from the spec: `forward_step` calls
    `self.decoder` and `self.fc`, attributes installed by the parent
    `IncrementalDecoder` (kospeech/models/decoder.py, not under src/); per the
    spec they run one decoding pass producing [batch, length, d_model] states
    and a classification projection into `num_classes` scores. -/
structure SpeechTransformerDecoder where
  num_classes : ℕ
  d_model : ℕ
  num_layers : ℕ
  num_heads : ℕ
  pad_id : ℕ
  sos_id : ℕ
  eos_id : ℕ
  max_length : ℕ
  embedding : Embedding
  positional_encoding : PositionalEncoding
  input_dropout : Dropout
  layers : List SpeechTransformerDecoderLayer
  decData : T2I → T1I → T3 → (ℕ → ℕ → ℕ → ℚ)
  fcData : T3 → (ℕ → ℕ → ℕ → ℚ)

/-- The `self.decoder(...)` then `self.fc(...)` composition of `forward_step`
    (lines 126-127): per-position class scores of shape
    [batch, length, num_classes]. -/
def SpeechTransformerDecoder.classScores (d : SpeechTransformerDecoder)
    (prev_step_outputs : T2I) (encoder_output_lengths : T1I)
    (encoder_outputs : T3) : T3 :=
  let step_output : T3 :=
    ⟨prev_step_outputs.n0, prev_step_outputs.n1, d.d_model,
      d.decData prev_step_outputs encoder_output_lengths encoder_outputs⟩
  ⟨step_output.n0, step_output.n1, d.num_classes, d.fcData step_output⟩

/-- `SpeechTransformerDecoder.forward_step` (lines 120-128): class scores
    followed by `step_output.max(dim=-1, keepdim=False)[1]`, the arg-max index
    over the class dimension. -/
def SpeechTransformerDecoder.forward_step (d : SpeechTransformerDecoder)
    (prev_step_outputs : T2I) (encoder_output_lengths : T1I)
    (encoder_outputs : T3) : T2I :=
  let step_output := d.classScores prev_step_outputs encoder_output_lengths
    encoder_outputs
  ⟨step_output.n0, step_output.n1,
    fun b s => argmaxIdx step_output.n2 (fun j => step_output.d b s j)⟩

/-- `SpeechTransformerDecoder.forward(inputs, encoder_output_lengths,
    encoder_outputs)` (lines 130-147).  The mask-construction utilities
    `get_decoder_self_attn_mask` and `get_attn_pad_mask`
    (kospeech/models/transformer/mask.py, not under src/) are Modelled from the
    spec as abstract mask suppliers `gsm` and `gpm`. -/
def SpeechTransformerDecoder.forward (d : SpeechTransformerDecoder)
    (gsm : T2I → T2I → ℕ → Option T3) (gpm : T3 → T1I → ℕ → Option T3)
    (inputs : T2I) (encoder_output_lengths : T1I) (encoder_outputs : T3) : T3 :=
  let target_length := inputs.n1
  let self_attn_mask := gsm inputs inputs d.pad_id
  let encoder_outputs_mask := gpm encoder_outputs encoder_output_lengths
    target_length
  let o0 := (d.embedding.ap inputs).bAdd (d.positional_encoding.ap target_length)
  let o1 := d.input_dropout.ap o0
  d.layers.foldl
    (fun acc layer =>
      (layer.forward acc encoder_outputs self_attn_mask encoder_outputs_mask).1)
    o1

/-- State-threaded form of `SpeechTransformerDecoder.forward`: the body
    contains no assignment to `self`, so the post-state equals the
    pre-state. -/
def SpeechTransformerDecoder.forwardS (d : SpeechTransformerDecoder)
    (gsm : T2I → T2I → ℕ → Option T3) (gpm : T3 → T1I → ℕ → Option T3)
    (inputs : T2I) (encoder_output_lengths : T1I) (encoder_outputs : T3) :
    SpeechTransformerDecoder × T3 :=
  (d, d.forward gsm gpm inputs encoder_output_lengths encoder_outputs)

/-- Modelled from the spec: `JasperSubBlock`
    (kospeech/models/jasper/sublayers.py, not under src/) is an out-of-scope
    collaborator; only its call signature
    `(inputs, input_lengths) -> (output, output_lengths)` is relied on. -/
structure JasperSubBlock where
  ap : T3 → T1I → T3 × T1I

/-- `JasperDecoder` (src/kospeech/models/jasper/decoder.py). -/
structure JasperDecoder where
  layers : List JasperSubBlock

/-- `JasperDecoder.__init__` (lines 41-53): a `ModuleList` of exactly three
    sub-blocks built from the configuration. -/
def JasperDecoder.init (b0 b1 b2 : JasperSubBlock) : JasperDecoder :=
  ⟨[b0, b1, b2]⟩

/-- `JasperDecoder.forward(encoder_outputs, encoder_output_lengths)`
    (lines 54-62): the loop body applies each layer to `encoder_outputs` and
    `encoder_output_lengths` — the original arguments — then `F.log_softmax`
    is applied to the final `output`. -/
def JasperDecoder.forward (j : JasperDecoder) (ex lg : ℚ → ℚ)
    (encoder_outputs : T3) (encoder_output_lengths : T1I) : T3 × T1I :=
  let r := j.layers.foldl
    (fun _acc layer => layer.ap encoder_outputs encoder_output_lengths)
    (encoder_outputs, encoder_output_lengths)
  (logSoftmaxLast ex lg r.1, r.2)

lemma bsize_self (a : ℕ) : bsize a a = a := by
  unfold bsize; split <;> rfl

lemma bsize_one (a : ℕ) : bsize a 1 = a := by
  unfold bsize; split <;> omega

lemma bidx_one (i : ℕ) : bidx 1 i = 0 := rfl

lemma div_of_eq_mul {a b c : ℕ} (h : 0 < c) (e : a = b * c) : a / c = b := by
  rw [e, Nat.mul_div_cancel _ h]

lemma flat2_index (t : T2) (i : ℕ) {j : ℕ} (hj : j < t.n1) :
    t.flat (i * t.n1 + j) = t.d i j := by
  have hdiv : (i * t.n1 + j) / t.n1 = i := by
    have h1 : 0 < t.n1 := lt_of_le_of_lt (Nat.zero_le _) hj
    rw [Nat.mul_comm i t.n1, Nat.mul_add_div h1, Nat.div_eq_of_lt hj, Nat.add_zero]
  have hmod : (i * t.n1 + j) % t.n1 = j := by
    rw [Nat.mul_comm i t.n1, Nat.mul_add_mod, Nat.mod_eq_of_lt hj]
  unfold T2.flat
  rw [hdiv, hmod]

lemma flat3_index (t : T3) (i : ℕ) {j k : ℕ} (hj : j < t.n1) (hk : k < t.n2) :
    t.flat ((i * t.n1 + j) * t.n2 + k) = t.d i j k := by
  have h1 : 0 < t.n1 := lt_of_le_of_lt (Nat.zero_le _) hj
  have h2 : 0 < t.n2 := lt_of_le_of_lt (Nat.zero_le _) hk
  have e0 : (i * t.n1 + j) * t.n2 + k = t.n2 * (i * t.n1 + j) + k := by ring
  have hmod : ((i * t.n1 + j) * t.n2 + k) % t.n2 = k := by
    rw [e0, Nat.mul_add_mod, Nat.mod_eq_of_lt hk]
  have hdiv2 : ((i * t.n1 + j) * t.n2 + k) / t.n2 = i * t.n1 + j := by
    rw [e0, Nat.mul_add_div h2, Nat.div_eq_of_lt hk, Nat.add_zero]
  have hmod1 : (i * t.n1 + j) % t.n1 = j := by
    rw [Nat.mul_comm i t.n1, Nat.mul_add_mod, Nat.mod_eq_of_lt hj]
  have hsub : j * t.n2 + k < t.n1 * t.n2 := by
    calc j * t.n2 + k < j * t.n2 + t.n2 := by omega
    _ = (j + 1) * t.n2 := by ring
    _ ≤ t.n1 * t.n2 := Nat.mul_le_mul (by omega) (le_refl _)
  have e1 : (i * t.n1 + j) * t.n2 + k = t.n1 * t.n2 * i + (j * t.n2 + k) := by
    ring
  have hdiv12 : ((i * t.n1 + j) * t.n2 + k) / (t.n1 * t.n2) = i := by
    rw [e1, Nat.mul_add_div (Nat.mul_pos h1 h2), Nat.div_eq_of_lt hsub,
      Nat.add_zero]
  unfold T3.flat
  rw [hdiv12, hdiv2, hmod1, hmod]

lemma flat4_index (t : T4) (i : ℕ) {j k l : ℕ} (hj : j < t.n1)
    (hk : k < t.n2) (hl : l < t.n3) :
    t.flat (((i * t.n1 + j) * t.n2 + k) * t.n3 + l) = t.d i j k l := by
  have h1 : 0 < t.n1 := lt_of_le_of_lt (Nat.zero_le _) hj
  have h2 : 0 < t.n2 := lt_of_le_of_lt (Nat.zero_le _) hk
  have h3 : 0 < t.n3 := lt_of_le_of_lt (Nat.zero_le _) hl
  set X := ((i * t.n1 + j) * t.n2 + k) * t.n3 + l with hX
  have e0 : X = t.n3 * ((i * t.n1 + j) * t.n2 + k) + l := by rw [hX]; ring
  have hmod3 : X % t.n3 = l := by rw [e0, Nat.mul_add_mod, Nat.mod_eq_of_lt hl]
  have hdiv3 : X / t.n3 = (i * t.n1 + j) * t.n2 + k := by
    rw [e0, Nat.mul_add_div h3, Nat.div_eq_of_lt hl, Nat.add_zero]
  have hmod2 : ((i * t.n1 + j) * t.n2 + k) % t.n2 = k := by
    rw [show (i * t.n1 + j) * t.n2 + k = t.n2 * (i * t.n1 + j) + k from by ring,
      Nat.mul_add_mod, Nat.mod_eq_of_lt hk]
  have hsub2 : k * t.n3 + l < t.n2 * t.n3 := by
    calc k * t.n3 + l < k * t.n3 + t.n3 := by omega
    _ = (k + 1) * t.n3 := by ring
    _ ≤ t.n2 * t.n3 := Nat.mul_le_mul (by omega) (le_refl _)
  have e1 : X = t.n2 * t.n3 * (i * t.n1 + j) + (k * t.n3 + l) := by
    rw [hX]; ring
  have hdiv23 : X / (t.n2 * t.n3) = i * t.n1 + j := by
    rw [e1, Nat.mul_add_div (Nat.mul_pos h2 h3), Nat.div_eq_of_lt hsub2,
      Nat.add_zero]
  have hmod1 : (i * t.n1 + j) % t.n1 = j := by
    rw [Nat.mul_comm i t.n1, Nat.mul_add_mod, Nat.mod_eq_of_lt hj]
  have hsub1 : j * (t.n2 * t.n3) + (k * t.n3 + l) < t.n1 * (t.n2 * t.n3) := by
    calc j * (t.n2 * t.n3) + (k * t.n3 + l)
        < j * (t.n2 * t.n3) + t.n2 * t.n3 := by omega
    _ = (j + 1) * (t.n2 * t.n3) := by ring
    _ ≤ t.n1 * (t.n2 * t.n3) := Nat.mul_le_mul (by omega) (le_refl _)
  have e2 : X = t.n1 * t.n2 * t.n3 * i + (j * (t.n2 * t.n3) + (k * t.n3 + l)) := by
    rw [hX]; ring
  have hdiv123 : X / (t.n1 * t.n2 * t.n3) = i := by
    rw [e2]
    rw [show t.n1 * t.n2 * t.n3 = t.n1 * (t.n2 * t.n3) from by ring] at *
    rw [Nat.mul_add_div (Nat.mul_pos h1 (Nat.mul_pos h2 h3)),
      Nat.div_eq_of_lt hsub1, Nat.add_zero]
  unfold T4.flat
  rw [hdiv123, hdiv23, hdiv3, hmod1, hmod2, hmod3]

lemma convOutLen_3_1 (l : ℕ) : convOutLen l 3 1 = l := by
  unfold convOutLen; omega

theorem argmaxIdx_lt : ∀ (n : ℕ) (f : ℕ → ℚ), 0 < n → argmaxIdx n f < n
  | 0, _, h => absurd h (by omega)
  | n + 1, f, _ => by
    show (let b := argmaxIdx n f; if f b < f n then n else b) < n + 1
    dsimp only
    split
    · omega
    · rcases Nat.eq_zero_or_pos n with h0 | hpos
      · subst h0
        show argmaxIdx 0 f < 1
        unfold argmaxIdx
        omega
      · exact Nat.lt_succ_of_lt (argmaxIdx_lt n f hpos)

theorem le_argmaxIdx (n : ℕ) (f : ℕ → ℚ) : ∀ {j : ℕ}, j < n → f j ≤ f (argmaxIdx n f) := by
  induction n with
  | zero => omega
  | succ m ih =>
    intro j hj
    show f j ≤ f (let b := argmaxIdx m f; if f b < f m then m else b)
    dsimp only
    rcases Nat.lt_succ_iff_lt_or_eq.mp hj with hlt | heq
    · have hle := ih hlt
      split
      · next hcase => exact le_trans hle (le_of_lt hcase)
      · exact hle
    · subst heq
      split
      · exact le_refl _
      · next hcase => exact le_of_not_lt hcase

theorem softmax2_row_sum (ex : ℚ → ℚ) (hex : ∀ x, 0 < ex x) (t : T2) (r : ℕ)
    (h : 0 < t.n1) :
    ∑ s in Finset.range t.n1, (softmax2 ex t).d r s = 1 := by
  unfold softmax2
  dsimp only
  rw [← Finset.sum_div]
  apply div_self
  exact ne_of_gt (Finset.sum_pos (fun i _ => hex _)
    (Finset.nonempty_range_iff.mpr (by omega)))

theorem softmax2_nonneg (ex : ℚ → ℚ) (hex : ∀ x, 0 < ex x) (t : T2)
    (r s : ℕ) (h : 0 < t.n1) : 0 ≤ (softmax2 ex t).d r s := by
  unfold softmax2
  dsimp only
  exact le_of_lt (div_pos (hex _) (Finset.sum_pos (fun i _ => hex _)
    (Finset.nonempty_range_iff.mpr (by omega))))

lemma repeat_unsqueeze_flat (t : T3) (H : ℕ) {i h s e : ℕ} (hi : i < t.n0)
    (hh : h < H) (hs : s < t.n1) (he : e < t.n2) :
    ((t.unsqueeze1).repeat4 1 H 1 1).flat (((i * H + h) * t.n1 + s) * t.n2 + e)
      = t.d i s e := by
  have hj : h < ((t.unsqueeze1).repeat4 1 H 1 1).n1 := by
    simpa [T3.unsqueeze1, T4.repeat4] using hh
  have hk : s < ((t.unsqueeze1).repeat4 1 H 1 1).n2 := by
    simpa [T3.unsqueeze1, T4.repeat4] using hs
  have hl : e < ((t.unsqueeze1).repeat4 1 H 1 1).n3 := by
    simpa [T3.unsqueeze1, T4.repeat4] using he
  have key := flat4_index ((t.unsqueeze1).repeat4 1 H 1 1) i hj hk hl
  have eidx : ((i * ((t.unsqueeze1).repeat4 1 H 1 1).n1 + h) *
      ((t.unsqueeze1).repeat4 1 H 1 1).n2 + s) *
      ((t.unsqueeze1).repeat4 1 H 1 1).n3 + e
      = ((i * H + h) * t.n1 + s) * t.n2 + e := by
    simp [T3.unsqueeze1, T4.repeat4]
  rw [eidx] at key
  rw [key]
  show ((t.unsqueeze1).repeat4 1 H 1 1).d i h s e = t.d i s e
  simp [T3.unsqueeze1, T4.repeat4, Nat.mod_eq_of_lt hi, Nat.mod_eq_of_lt hs,
    Nat.mod_eq_of_lt he, Nat.mod_one]

lemma locEnergy_n1 (m : LocationAwareAttention) (th : ℚ → ℚ) (S : ℕ)
    (paT : T3) : (m.locEnergy th S paT).n1 = S := rfl

lemma locEnergy_n2 (m : LocationAwareAttention) (th : ℚ → ℚ) (S : ℕ)
    (paT : T3) : (m.locEnergy th S paT).n2 = m.dim := rfl

lemma locEnergy_n0 (m : LocationAwareAttention) (th : ℚ → ℚ) (S : ℕ)
    (paT : T3) (hp2 : paT.n2 = S)
    (hker : m.conv1d.kernel = 3) (hpad : m.conv1d.pad = 1)
    (hlp : m.loc_proj.outF = m.dim) (hS : 0 < S) (hdm : 0 < m.dim) :
    (m.locEnergy th S paT).n0 = paT.n0 * m.num_heads := by
  unfold LocationAwareAttention.locEnergy
  dsimp only [mkT3, T3.map3, Linear.ap3, T3.transpose12, Conv1d.ap,
    T3.unsqueeze1, T4.repeat4, T4.numel]
  rw [hker, hpad, hp2, convOutLen_3_1, hlp]
  exact div_of_eq_mul (Nat.mul_pos hS hdm) (by ring)

lemma locEnergy_data (m : LocationAwareAttention) (th : ℚ → ℚ) (S : ℕ)
    (paT : T3) (hp2 : paT.n2 = S)
    (hker : m.conv1d.kernel = 3) (hpad : m.conv1d.pad = 1)
    (hlp : m.loc_proj.outF = m.dim)
    {b h s e : ℕ} (hb : b < paT.n0) (hh : h < m.num_heads) (hs : s < S)
    (he : e < m.dim) :
    (m.locEnergy th S paT).d (b * m.num_heads + h) s e
      = th ((∑ c in Finset.range m.loc_proj.inF,
          m.loc_proj.w e c * (m.conv1d.ap paT).d b c s) + m.loc_proj.b e) := by
  have hl1 : (T3.map3 th (m.loc_proj.ap3 (m.conv1d.ap paT).transpose12)).n1 = S := by
    dsimp only [T3.map3, Linear.ap3, T3.transpose12, Conv1d.ap]
    rw [hker, hpad, hp2, convOutLen_3_1]
  have hl2 : (T3.map3 th (m.loc_proj.ap3 (m.conv1d.ap paT).transpose12)).n2 = m.dim := by
    dsimp only [T3.map3, Linear.ap3, T3.transpose12, Conv1d.ap]
    rw [hlp]
  have hb' : b < (T3.map3 th (m.loc_proj.ap3 (m.conv1d.ap paT).transpose12)).n0 := by
    dsimp only [T3.map3, Linear.ap3, T3.transpose12, Conv1d.ap]
    exact hb
  have key := repeat_unsqueeze_flat
    (T3.map3 th (m.loc_proj.ap3 (m.conv1d.ap paT).transpose12)) m.num_heads
    hb' hh (by rw [hl1]; exact hs) (by rw [hl2]; exact he)
  unfold LocationAwareAttention.locEnergy
  dsimp only [mkT3]
  rw [show ((b * m.num_heads + h) * S + s) * m.dim + e
      = ((b * m.num_heads + h) *
          (T3.map3 th (m.loc_proj.ap3 (m.conv1d.ap paT).transpose12)).n1 + s) *
          (T3.map3 th (m.loc_proj.ap3 (m.conv1d.ap paT).transpose12)).n2 + e from by
    rw [hl1, hl2]]
  rw [key]
  dsimp only [T3.map3, Linear.ap3, T3.transpose12]

lemma valueHeads_n1 (m : LocationAwareAttention) (B S : ℕ) (value : T3) :
    (m.valueHeads B S value).n1 = S := rfl

lemma valueHeads_n2 (m : LocationAwareAttention) (B S : ℕ) (value : T3) :
    (m.valueHeads B S value).n2 = m.dim := rfl

lemma valueHeads_n0 (m : LocationAwareAttention) (B S : ℕ) (value : T3)
    (hv0 : value.n0 = B) (hv1 : value.n1 = S)
    (hvout : m.v_proj.outF = m.dim * m.num_heads)
    (hB : 0 < B) (hH : 0 < m.num_heads) (hdm : 0 < m.dim) (hS : 0 < S) :
    (m.valueHeads B S value).n0 = B * m.num_heads := by
  unfold LocationAwareAttention.valueHeads
  dsimp only [mkT3, mkT4, T4.permute0213, T3.numel, T4.numel, Linear.ap3]
  rw [hv0, hv1, hvout]
  have hmid : B * S * (m.dim * m.num_heads) / (B * (m.num_heads * m.dim)) = S :=
    div_of_eq_mul (Nat.mul_pos hB (Nat.mul_pos hH hdm)) (by ring)
  rw [hmid]
  exact div_of_eq_mul (Nat.mul_pos hS hdm) (by ring)

lemma queryHeads_n1 (m : LocationAwareAttention) (B : ℕ) (query : T3) :
    (m.queryHeads B query).n1 = 1 := rfl

lemma queryHeads_n2 (m : LocationAwareAttention) (B : ℕ) (query : T3) :
    (m.queryHeads B query).n2 = m.dim := rfl

lemma queryHeads_n0 (m : LocationAwareAttention) (B : ℕ) (query : T3)
    (hq0 : query.n0 = B) (hq1 : query.n1 = 1)
    (hqout : m.q_proj.outF = m.dim * m.num_heads)
    (hB : 0 < B) (hH : 0 < m.num_heads) (hdm : 0 < m.dim) :
    (m.queryHeads B query).n0 = B * m.num_heads := by
  unfold LocationAwareAttention.queryHeads
  dsimp only [mkT3, mkT4, T4.permute0213, T3.numel, T4.numel, Linear.ap3]
  rw [hq0, hq1, hqout]
  have hmid : B * 1 * (m.dim * m.num_heads) / (B * (m.num_heads * m.dim)) = 1 :=
    div_of_eq_mul (Nat.mul_pos hB (Nat.mul_pos hH hdm)) (by ring)
  rw [hmid]
  exact div_of_eq_mul (Nat.mul_pos Nat.one_pos hdm) (by ring)

lemma alignResult_n1 (m : LocationAwareAttention) (ex th : ℚ → ℚ)
    (query value paT : T3) :
    (m.alignResult ex th query value paT).n1 = value.n1 := by
  unfold LocationAwareAttention.alignResult LocationAwareAttention.score
  dsimp only [softmax2, T3.squeeze2, Linear.ap3, T3.bAdd, T3.map3]
  rw [valueHeads_n1, queryHeads_n1, locEnergy_n1]
  simp only [bsize_one, bsize_self]

lemma alignResult_n0 (m : LocationAwareAttention) (ex th : ℚ → ℚ)
    (query value paT : T3)
    (hq0 : query.n0 = value.n0) (hq1 : query.n1 = 1)
    (hp0 : paT.n0 = value.n0) (hp2 : paT.n2 = value.n1)
    (hqout : m.q_proj.outF = m.dim * m.num_heads)
    (hvout : m.v_proj.outF = m.dim * m.num_heads)
    (hker : m.conv1d.kernel = 3) (hpad : m.conv1d.pad = 1)
    (hlp : m.loc_proj.outF = m.dim)
    (hB : 0 < value.n0) (hS : 0 < value.n1) (hH : 0 < m.num_heads)
    (hdm : 0 < m.dim) :
    (m.alignResult ex th query value paT).n0 = value.n0 * m.num_heads := by
  unfold LocationAwareAttention.alignResult LocationAwareAttention.score
  dsimp only [softmax2, T3.squeeze2, Linear.ap3, T3.bAdd, T3.map3]
  rw [valueHeads_n0 m value.n0 value.n1 value rfl rfl hvout hB hH hdm hS,
    queryHeads_n0 m value.n0 query hq0 hq1 hqout hB hH hdm,
    locEnergy_n0 m th value.n1 paT hp2 hker hpad hlp hS hdm, hp0]
  simp only [bsize_self, bsize_one]

/-- C3: for every valid input to `LocationAwareAttention.forward` (q_len = 1,
    matching batch and value-length dimensions, positive sizes, `hidden_dim =
    num_heads * dim`), the alignment computed at lines 64-65 and reshaped at
    line 72 — the `align` component of the result — is a probability
    distribution per (batch, head) pair: every entry is non-negative and the
    entries over the `v_len` positions sum to exactly 1 (exact arithmetic
    subsumes the 1e-5 tolerance).  `ex` is the exponential inside softmax,
    assumed strictly positive. -/
theorem C3_alignment_distribution
    (hd H cout dm : ℕ)
    (qw vw lw : ℕ → ℕ → ℚ) (cw : ℕ → ℕ → ℕ → ℚ) (cb bv sb ob : ℕ → ℚ)
    (sw ow : ℕ → ℕ → ℚ)
    (ex th : ℚ → ℚ) (hex : ∀ x, 0 < ex x)
    (query value paT : T3)
    (hH : 0 < H) (hdm : 0 < dm) (hhd : hd = H * dm)
    (hB : 0 < value.n0) (hS : 0 < value.n1)
    (hq0 : query.n0 = value.n0) (hq1 : query.n1 = 1)
    (hp0 : paT.n0 = value.n0) (hp2 : paT.n2 = value.n1) :
    ∀ b < value.n0, ∀ h < H,
      (∀ s < value.n1,
        0 ≤ ((LocationAwareAttention.init hd H cout qw vw lw cw cb bv sw sb ow
          ob).align3Result ex th query value paT).d b h s) ∧
      ∑ s in Finset.range value.n1,
        ((LocationAwareAttention.init hd H cout qw vw lw cw cb bv sw sb ow
          ob).align3Result ex th query value paT).d b h s = 1 := by
  intro b hb h hh
  set m := LocationAwareAttention.init hd H cout qw vw lw cw cb bv sw sb ow ob
    with hmdef
  have hmH : m.num_heads = H := rfl
  have hmdim : m.dim = dm := by
    show hd / H = dm
    rw [hhd]
    exact Nat.mul_div_cancel_left dm hH
  have hqout : m.q_proj.outF = m.dim * m.num_heads := rfl
  have hvout : m.v_proj.outF = m.dim * m.num_heads := rfl
  have hker : m.conv1d.kernel = 3 := rfl
  have hpad : m.conv1d.pad = 1 := rfl
  have hlp : m.loc_proj.outF = m.dim := rfl
  have hH' : 0 < m.num_heads := hH
  have hdm' : 0 < m.dim := by rw [hmdim]; exact hdm
  have hn0 : (m.alignResult ex th query value paT).n0 = value.n0 * H := by
    have := alignResult_n0 m ex th query value paT hq0 hq1 hp0 hp2 hqout hvout
      hker hpad hlp hB hS hH' hdm'
    rw [hmH] at this
    exact this
  have hn1 : (m.alignResult ex th query value paT).n1 = value.n1 :=
    alignResult_n1 m ex th query value paT
  have hCnum : (m.alignResult ex th query value paT).numel / (value.n0 * H)
      = value.n1 := by
    unfold T2.numel
    rw [hn0, hn1]
    exact div_of_eq_mul (Nat.mul_pos hB hH) (by ring)
  have hentry : ∀ s, s < value.n1 →
      (m.align3Result ex th query value paT).d b h s
        = (m.alignResult ex th query value paT).d (b * H + h) s := by
    intro s hs
    unfold LocationAwareAttention.align3Result
    dsimp only [mkT3]
    rw [hmH, hCnum, ← hn1]
    exact flat2_index _ (b * H + h) (by rw [hn1]; exact hs)
  have hpos : 0 < (m.score th (m.queryHeads value.n0 query)
      (m.valueHeads value.n0 value.n1 value) (m.locEnergy th value.n1 paT)).n1 := by
    have hts : (m.score th (m.queryHeads value.n0 query)
        (m.valueHeads value.n0 value.n1 value)
        (m.locEnergy th value.n1 paT)).n1 = value.n1 := hn1
    rw [hts]
    exact hS
  constructor
  · intro s hs
    rw [hentry s hs]
    exact softmax2_nonneg ex hex (m.score th (m.queryHeads value.n0 query)
      (m.valueHeads value.n0 value.n1 value) (m.locEnergy th value.n1 paT))
      (b * H + h) s hpos
  · rw [Finset.sum_congr rfl (fun s hs => hentry s (Finset.mem_range.mp hs))]
    have hsum := softmax2_row_sum ex hex (m.score th (m.queryHeads value.n0 query)
      (m.valueHeads value.n0 value.n1 value) (m.locEnergy th value.n1 paT))
      (b * H + h) hpos
    have hts : (m.score th (m.queryHeads value.n0 query)
        (m.valueHeads value.n0 value.n1 value)
        (m.locEnergy th value.n1 paT)).n1 = value.n1 := hn1
    rw [hts] at hsum
    exact hsum

/-- C6: the location-energy computation (lines 53-55): the 1-D convolution has
    kernel size 3 and padding 1 so preserves the sequence length; each entry of
    the location energy is `tanh` of a bias-free linear projection (weights
    `lw`, no bias term) of the convolution output; and the per-batch location
    signal is replicated identically along the head axis: heads `h1` and `h2`
    of the same batch element receive equal location-energy slices. -/
theorem C6_location_energy
    (hd H cout dm : ℕ)
    (qw vw lw : ℕ → ℕ → ℚ) (cw : ℕ → ℕ → ℕ → ℚ) (cb bv sb ob : ℕ → ℚ)
    (sw ow : ℕ → ℕ → ℚ) (th : ℚ → ℚ)
    (S : ℕ) (paT : T3)
    (hH : 0 < H) (hdm : 0 < dm) (hhd : hd = H * dm)
    (hp2 : paT.n2 = S) (hS : 0 < S) :
    let m := LocationAwareAttention.init hd H cout qw vw lw cw cb bv sw sb ow ob
    ((m.conv1d.ap paT).n2 = paT.n2) ∧
    ((m.locEnergy th S paT).n1 = S ∧ (m.locEnergy th S paT).n2 = dm) ∧
    (∀ b < paT.n0, ∀ h < H, ∀ s < S, ∀ e < dm,
      (m.locEnergy th S paT).d (b * H + h) s e
        = th (∑ c in Finset.range cout, lw e c * (m.conv1d.ap paT).d b c s)) ∧
    (∀ b < paT.n0, ∀ h1 < H, ∀ h2 < H, ∀ s < S, ∀ e < dm,
      (m.locEnergy th S paT).d (b * H + h1) s e
        = (m.locEnergy th S paT).d (b * H + h2) s e) := by
  intro m
  have hmdim : m.dim = dm := by
    show hd / H = dm
    rw [hhd]
    exact Nat.mul_div_cancel_left dm hH
  have hker : m.conv1d.kernel = 3 := rfl
  have hpad : m.conv1d.pad = 1 := rfl
  have hlp : m.loc_proj.outF = m.dim := rfl
  have hform : ∀ b, b < paT.n0 → ∀ h, h < H → ∀ s, s < S → ∀ e, e < dm →
      (m.locEnergy th S paT).d (b * H + h) s e
        = th (∑ c in Finset.range cout, lw e c * (m.conv1d.ap paT).d b c s) := by
    intro b hb h hh s hs e he
    have he' : e < m.dim := by rw [hmdim]; exact he
    have key := locEnergy_data m th S paT hp2 hker hpad hlp hb hh hs he'
    have ebias : m.loc_proj.b e = 0 := rfl
    rw [ebias, add_zero] at key
    exact key
  refine ⟨?_, ⟨rfl, hmdim⟩, hform, ?_⟩
  · show convOutLen paT.n2 3 1 = paT.n2
    exact convOutLen_3_1 _
  · intro b hb h1 hh1 h2 hh2 s hs e he
    rw [hform b hb h1 hh1 s hs e he, hform b hb h2 hh2 s hs e he]

/-- The condition under which the `nn.Conv1d` call on line 53 of `forward`
    accepts its input: for an explicit previous alignment, rank 3 with
    `num_heads` channels and enough (padded) length for the kernel; for `none`,
    the synthesized zero tensor always has `num_heads` channels, so only the
    length condition remains. -/
def prevOk (m : LocationAwareAttention) (value : T3) :
    Option PyTensor → Prop
  | none => m.num_heads = m.conv1d.inC ∧
      m.conv1d.kernel ≤ value.n1 + 2 * m.conv1d.pad
  | some (.t2 _) => False
  | some (.t3 t) => t.n1 = m.conv1d.inC ∧
      m.conv1d.kernel ≤ t.n2 + 2 * m.conv1d.pad

/-- C2: on every input whose previous alignment passes the convolution's input
    validation, `LocationAwareAttention.forward` raises the attribute-lookup
    error on `self.hidden_dim` (line 76) and therefore never returns an
    `(output, align)` pair: `__init__` never assigns `self.hidden_dim`. -/
theorem C2_forward_always_raises
    (hd H cout : ℕ)
    (qw vw lw : ℕ → ℕ → ℚ) (cw : ℕ → ℕ → ℕ → ℚ) (cb bv sb ob : ℕ → ℚ)
    (sw ow : ℕ → ℕ → ℚ) (ex th : ℚ → ℚ) (query value : T3)
    (prev : Option PyTensor)
    (hprev : prevOk
      (LocationAwareAttention.init hd H cout qw vw lw cw cb bv sw sb ow ob)
      value prev) :
    (LocationAwareAttention.init hd H cout qw vw lw cw cb bv sw sb ow
      ob).forward ex th query value prev
      = Except.error PyError.missingHiddenDim := by
  cases prev with
  | none =>
    unfold LocationAwareAttention.forward
    dsimp only
    rw [if_pos]
    · rfl
    · exact hprev
  | some t =>
    cases t with
    | t2 t => exact hprev.elim
    | t3 t =>
      unfold LocationAwareAttention.forward
      dsimp only
      rw [if_pos]
      · rfl
      · exact hprev

def z1 : ℕ → ℚ := fun _ => 0

def z2 : ℕ → ℕ → ℚ := fun _ _ => 0

def z3 : ℕ → ℕ → ℕ → ℚ := fun _ _ _ => 0

def one1 : ℚ → ℚ := fun _ => 1

def idQ : ℚ → ℚ := fun x => x

theorem C2_forward_always_raises_witness :
    (LocationAwareAttention.init 2 1 1 z2 z2 z2 z3 z1 z1 z2 z1 z2
      z1).forward one1 idQ ⟨1, 1, 2, z3⟩ ⟨1, 3, 2, z3⟩ none
      = Except.error PyError.missingHiddenDim :=
  C2_forward_always_raises 2 1 1 z2 z2 z2 z3 z1 z1 z1 z1 z2 z2 one1 idQ
    ⟨1, 1, 2, z3⟩ ⟨1, 3, 2, z3⟩ none ⟨rfl, by decide⟩

/-- C1: the claim that every valid call returns normally with
    `output.shape == query.shape` fails on the code: at this valid input
    (hidden_dim 4, 2 heads, query of shape (1, 1, 4), value of shape
    (1, 2, 4), no previous alignment), `forward` reaches line 76, reads the
    never-assigned attribute `self.hidden_dim`, and raises `AttributeError`
    instead of returning an output. -/
theorem C1_forward_attribute_error :
    (LocationAwareAttention.init 4 2 2 z2 z2 z2 z3 z1 z1 z2 z1 z2
      z1).forward one1 idQ ⟨1, 1, 4, z3⟩ ⟨1, 2, 4, z3⟩ none
      = Except.error PyError.missingHiddenDim := rfl

/-- C4 counterexample: passing an explicit all-zero previous alignment of the
    docstring/spec shape `[batch·num_heads, v_len]` (here (2, 2), rank 2) is
    not behaviorally identical to passing `None`: the rank-2 tensor is rejected
    by the convolution's input validation, while `None` is replaced by a rank-3
    zero tensor of shape (batch, num_heads, v_len) and proceeds. -/
theorem C4_documented_shape_differs :
    (LocationAwareAttention.init 2 2 1 z2 z2 z2 z3 z1 z1 z2 z1 z2
      z1).forward one1 idQ ⟨1, 1, 2, z3⟩ ⟨1, 2, 2, z3⟩
      (some (.t2 ⟨2, 2, z2⟩))
      ≠ (LocationAwareAttention.init 2 2 1 z2 z2 z2 z3 z1 z1 z2 z1 z2
      z1).forward one1 idQ ⟨1, 1, 2, z3⟩ ⟨1, 2, 2, z3⟩ none := by
  have e1 : (LocationAwareAttention.init 2 2 1 z2 z2 z2 z3 z1 z1 z2 z1 z2
      z1).forward one1 idQ ⟨1, 1, 2, z3⟩ ⟨1, 2, 2, z3⟩
      (some (.t2 ⟨2, 2, z2⟩)) = Except.error PyError.convInputRank := rfl
  have e2 : (LocationAwareAttention.init 2 2 1 z2 z2 z2 z3 z1 z1 z2 z1 z2
      z1).forward one1 idQ ⟨1, 1, 2, z3⟩ ⟨1, 2, 2, z3⟩ none
      = Except.error PyError.missingHiddenDim := rfl
  rw [e1, e2]
  simp

/-- C4 as amended: passing `None` is behaviorally identical to passing an
    explicit all-zero tensor of the rank-3 shape the code actually synthesizes,
    (batch, num_heads, v_len) — not the docstring's (batch·num_heads, v_len). -/
theorem C4_none_equals_zero_rank3 (m : LocationAwareAttention) (ex th : ℚ → ℚ)
    (query value : T3) :
    m.forward ex th query value none
      = m.forward ex th query value
          (some (.t3 ⟨value.n0, m.num_heads, value.n1, fun _ _ _ => 0⟩)) := rfl

def idw : ℕ → ℕ → ℚ := fun o i => if o = i then 1 else 0

/-- Concrete instance witnessing the lines 67-68 head scramble: hidden_dim 2,
    2 heads (dim 1), identity `v_proj`, all other weights zero (so the
    alignment is uniform), batch 1, v_len 2. -/
def mC5 : LocationAwareAttention :=
  LocationAwareAttention.init 2 2 1 z2 idw z2 z3 z1 z1 z2 z1 z2 z1

def qC5 : T3 := ⟨1, 1, 2, z3⟩

def vC5 : T3 :=
  ⟨1, 2, 2, fun _ s i =>
    if s = 0 then (if i = 0 then 0 else 1) else (if i = 0 then 2 else 3)⟩

def paC5 : T3 := ⟨1, 2, 2, z3⟩

/-- C5: the context entry computed by line 71 for (batch 0, head 0, feature 0)
    is 1/2, whereas the alignment-weighted average of head 0's own value rows
    (the head-split tensor of line 60) is 1 — the `view(batch_size, seq_len,
    num_heads, dim)` on line 67 reinterprets data laid out as (batch,
    num_heads, seq_len, dim) and mixes heads with positions, so the context is
    not the weighted average of that head's value rows. -/
theorem C5_context_not_head_average :
    (mC5.contextResult one1 idQ qC5 vC5 paC5).d 0 0 0 = 1 / 2 ∧
    (∑ s in Finset.range 2,
      (mC5.align3Result one1 idQ qC5 vC5 paC5).d 0 0 s *
        (mC5.valueHeads 1 2 vC5).d 0 s 0) = 1 ∧
    (mC5.contextResult one1 idQ qC5 vC5 paC5).d 0 0 0
      ≠ ∑ s in Finset.range 2,
          (mC5.align3Result one1 idQ qC5 vC5 paC5).d 0 0 s *
            (mC5.valueHeads 1 2 vC5).d 0 s 0 := by
  have e1 : (mC5.contextResult one1 idQ qC5 vC5 paC5).d 0 0 0 = 1 / 2 := by
    simp [mC5, LocationAwareAttention.init, LocationAwareAttention.contextResult,
      LocationAwareAttention.alignResult, LocationAwareAttention.valueHeads,
      LocationAwareAttention.valueRe, LocationAwareAttention.align3Result,
      LocationAwareAttention.locEnergy, LocationAwareAttention.queryHeads,
      LocationAwareAttention.score, softmax2, mkT3, mkT4, Linear.ap3, Conv1d.ap,
      T3.map3, T4.permute0213, T3.transpose12, T3.bmm, T2.unsqueeze1,
      T3.unsqueeze1, T4.repeat4, T3.bAdd, T3.squeeze2, bsize, bidx, padRead,
      convOutLen, T2.flat, T3.flat, T4.flat, T3.numel, T4.numel, T2.numel,
      z1, z2, z3, idw, one1, idQ, Finset.sum_range_succ, Finset.sum_range_zero,
      vC5, qC5, paC5]
  have e2 : (∑ s in Finset.range 2,
      (mC5.align3Result one1 idQ qC5 vC5 paC5).d 0 0 s *
        (mC5.valueHeads 1 2 vC5).d 0 s 0) = 1 := by
    simp [mC5, LocationAwareAttention.init,
      LocationAwareAttention.alignResult, LocationAwareAttention.valueHeads,
      LocationAwareAttention.align3Result,
      LocationAwareAttention.locEnergy, LocationAwareAttention.queryHeads,
      LocationAwareAttention.score, softmax2, mkT3, mkT4, Linear.ap3, Conv1d.ap,
      T3.map3, T4.permute0213, T3.transpose12, T3.bmm, T2.unsqueeze1,
      T3.unsqueeze1, T4.repeat4, T3.bAdd, T3.squeeze2, bsize, bidx, padRead,
      convOutLen, T2.flat, T3.flat, T4.flat, T3.numel, T4.numel, T2.numel,
      z1, z2, z3, idw, one1, idQ, Finset.sum_range_succ, Finset.sum_range_zero,
      vC5, qC5, paC5]
  refine ⟨e1, e2, ?_⟩
  rw [e1, e2]
  norm_num

theorem C3_alignment_distribution_witness :
    0 ≤ ((LocationAwareAttention.init 2 2 1 z2 z2 z2 z3 z1 z1 z2 z1 z2
        z1).align3Result one1 idQ ⟨1, 1, 2, z3⟩ ⟨1, 1, 2, z3⟩
        ⟨1, 2, 1, z3⟩).d 0 0 0 ∧
    ∑ s in Finset.range 1,
        ((LocationAwareAttention.init 2 2 1 z2 z2 z2 z3 z1 z1 z2 z1 z2
          z1).align3Result one1 idQ ⟨1, 1, 2, z3⟩ ⟨1, 1, 2, z3⟩
          ⟨1, 2, 1, z3⟩).d 0 0 s = 1 := by
  have h := C3_alignment_distribution 2 2 1 1 z2 z2 z2 z3 z1 z1 z1 z1 z2 z2 one1
    idQ (fun _ => one_pos) ⟨1, 1, 2, z3⟩ ⟨1, 1, 2, z3⟩ ⟨1, 2, 1, z3⟩
    (by decide) (by decide) (by decide) (by decide) (by decide) rfl rfl rfl rfl
    0 (by decide) 0 (by decide)
  exact ⟨h.1 0 (by decide), h.2⟩

theorem C6_location_energy_witness :
    let m := LocationAwareAttention.init 2 2 1 z2 z2 z2 z3 z1 z1 z2 z1 z2 z1
    ((m.conv1d.ap ⟨1, 2, 1, z3⟩).n2 = (⟨1, 2, 1, z3⟩ : T3).n2) ∧
    ((m.locEnergy idQ 1 ⟨1, 2, 1, z3⟩).n1 = 1 ∧
      (m.locEnergy idQ 1 ⟨1, 2, 1, z3⟩).n2 = 1) ∧
    (∀ b < (⟨1, 2, 1, z3⟩ : T3).n0, ∀ h < 2, ∀ s < 1, ∀ e < 1,
      (m.locEnergy idQ 1 ⟨1, 2, 1, z3⟩).d (b * 2 + h) s e
        = idQ (∑ c in Finset.range 1,
            z2 e c * (m.conv1d.ap ⟨1, 2, 1, z3⟩).d b c s)) ∧
    (∀ b < (⟨1, 2, 1, z3⟩ : T3).n0, ∀ h1 < 2, ∀ h2 < 2, ∀ s < 1, ∀ e < 1,
      (m.locEnergy idQ 1 ⟨1, 2, 1, z3⟩).d (b * 2 + h1) s e
        = (m.locEnergy idQ 1 ⟨1, 2, 1, z3⟩).d (b * 2 + h2) s e) :=
  C6_location_energy 2 2 1 1 z2 z2 z2 z3 z1 z1 z1 z1 z2 z2 idQ 1 ⟨1, 2, 1, z3⟩
    (by decide) (by decide) (by decide) rfl (by decide)

/-- C7: `SpeechTransformerDecoderLayer.forward` applies exactly the three
    sublayers in the fixed order self-attention, cross-attention, feed-forward
    (the cross-attention's queries being the self-attention sublayer's output
    and its keys and values the memory tensor), and the layer's output
    preserves the [batch, seq_len, d_model] shape of `inputs` (each wrapped
    sublayer is shape-preserving by the AddNorm/attention contracts). -/
theorem C7_decoder_layer_order_and_shape
    (l : SpeechTransformerDecoderLayer) (inputs memory : T3)
    (self_attn_mask memory_mask : Option T3) :
    ((l.forward inputs memory self_attn_mask memory_mask).1.n0 = inputs.n0 ∧
     (l.forward inputs memory self_attn_mask memory_mask).1.n1 = inputs.n1 ∧
     (l.forward inputs memory self_attn_mask memory_mask).1.n2 = inputs.n2) ∧
    l.forward inputs memory self_attn_mask memory_mask
      = (l.feed_forward.ap
          (l.memory_attention.ap
            (l.self_attention.ap inputs inputs inputs self_attn_mask).1
            memory memory memory_mask).1,
         (l.self_attention.ap inputs inputs inputs self_attn_mask).2,
         (l.memory_attention.ap
            (l.self_attention.ap inputs inputs inputs self_attn_mask).1
            memory memory memory_mask).2) := by
  unfold SpeechTransformerDecoderLayer.forward AddNormAttn.ap AddNormFF.ap
  dsimp only [LayerNorm.ap, MultiHeadAttention.ap, PositionwiseFeedForwardNet.ap,
    T3.add3]
  exact ⟨⟨rfl, rfl, rfl⟩, rfl⟩

/-- C8: `SpeechTransformerDecoder.forward_step` returns, for each position,
    the arg-max index over the class dimension of the classification
    projection's scores — a token id below `num_classes` that attains the
    maximal score. -/
theorem C8_forward_step_greedy_argmax
    (d : SpeechTransformerDecoder) (prev_step_outputs : T2I)
    (encoder_output_lengths : T1I) (encoder_outputs : T3)
    (hnc : 0 < d.num_classes) :
    ∀ b s,
      (d.forward_step prev_step_outputs encoder_output_lengths
        encoder_outputs).d b s < d.num_classes ∧
      ∀ j < d.num_classes,
        (d.classScores prev_step_outputs encoder_output_lengths
          encoder_outputs).d b s j
          ≤ (d.classScores prev_step_outputs encoder_output_lengths
              encoder_outputs).d b s
              ((d.forward_step prev_step_outputs encoder_output_lengths
                encoder_outputs).d b s) := by
  intro b s
  exact ⟨argmaxIdx_lt _ _ hnc, fun j hj => le_argmaxIdx _ _ hj⟩

def dC8 : SpeechTransformerDecoder :=
  ⟨5, 8, 1, 2, 0, 1, 2, 10, ⟨8, fun _ => z3⟩, ⟨8, fun _ => z3⟩, ⟨fun _ => z3⟩,
    [], fun _ _ _ => z3, fun _ => z3⟩

def prevC8 : T2I := ⟨1, 1, fun _ _ => 1⟩

def lensC8 : T1I := ⟨1, fun _ => 4⟩

def encC8 : T3 := ⟨1, 4, 8, z3⟩

theorem C8_forward_step_greedy_argmax_witness :
    (dC8.forward_step prevC8 lensC8 encC8).d 0 0 < dC8.num_classes ∧
    (dC8.classScores prevC8 lensC8 encC8).d 0 0 3
      ≤ (dC8.classScores prevC8 lensC8 encC8).d 0 0
          ((dC8.forward_step prevC8 lensC8 encC8).d 0 0) := by
  have h := C8_forward_step_greedy_argmax dC8 prevC8 lensC8 encC8 (by decide) 0 0
  exact ⟨h.1, h.2 3 (by decide)⟩

/-- C9: every sub-block of `JasperDecoder.forward` is applied to the original
    `encoder_outputs` and `encoder_output_lengths` rather than to the previous
    sub-block's output: the result does not depend on the first two sub-blocks
    `b0` and `b1`, and equals log-softmax of the third sub-block applied
    directly to the raw encoder outputs (with its lengths). -/
theorem C9_jasper_subblocks_use_raw_inputs (ex lg : ℚ → ℚ)
    (b0 b1 b2 : JasperSubBlock) (encoder_outputs : T3)
    (encoder_output_lengths : T1I) :
    (JasperDecoder.init b0 b1 b2).forward ex lg encoder_outputs
        encoder_output_lengths
      = (logSoftmaxLast ex lg (b2.ap encoder_outputs encoder_output_lengths).1,
         (b2.ap encoder_outputs encoder_output_lengths).2) := rfl

/-- C10: neither `LocationAwareAttention.forward` nor
    `SpeechTransformerDecoder.forward` mutates the module: the state-threaded
    forms return the module unchanged (the bodies contain no assignment to
    `self`), and a second call after a first one behaves exactly as a call on
    the pristine module — no per-call mutable state is retained. -/
theorem C10_forward_mutates_nothing
    (m : LocationAwareAttention) (ex th : ℚ → ℚ) (q v q2 v2 : T3)
    (p p2 : Option PyTensor)
    (d : SpeechTransformerDecoder) (gsm : T2I → T2I → ℕ → Option T3)
    (gpm : T3 → T1I → ℕ → Option T3) (i i2 : T2I) (el el2 : T1I)
    (eo eo2 : T3) :
    (m.forwardS ex th q v p).1 = m ∧
    (d.forwardS gsm gpm i el eo).1 = d ∧
    ((m.forwardS ex th q v p).1.forwardS ex th q2 v2 p2).2
      = (m.forwardS ex th q2 v2 p2).2 ∧
    ((d.forwardS gsm gpm i el eo).1.forwardS gsm gpm i2 el2 eo2).2
      = (d.forwardS gsm gpm i2 el2 eo2).2 :=
  ⟨rfl, rfl, rfl, rfl⟩
